import Mathlib

/-!
Verification development for the SQL practice bot (src/app.py).

The application delegates question generation and answer grading to an
external text-completion model.  The model reply is an input here: every
operation is embedded as a pure function from the reply text (and the
session state) to its result and the list of UI messages it emits.

Machine model of the Python pieces the claims touch:
  - str.strip / str.find / str.rfind / slicing are modelled on List Char
    (pyStrip, pyFind, pyRFind, pySlice);
  - json.loads is modelled by parseJson, a recursive-descent parser for
    the JSON fragment exercised here (objects, arrays, strings with the
    common escapes, integer numbers, true/false/null); floats and \u
    escapes are not modelled, and parse failure is Option.none
    (JSONDecodeError);
  - the Python membership test `field in data` on a parsed JSON value is
    pyIn: key membership on dicts, substring on strings, element
    membership on lists, and a TypeError on the remaining values;
  - Streamlit calls st.error / st.write / st.warning / st.success /
    st.info become UIEvent values; st.stop and st.rerun end the script
    run (RunOutcome.halted / the early RunOutcome.finished).
-/

/-- Brace characters, named so that no literal brace appears in the file. -/
def lbraceC : Char := Char.ofNat 123

/-- Closing brace character. -/
def rbraceC : Char := Char.ofNat 125

/-- Double-quote character. -/
def quoteC : Char := Char.ofNat 34

/-- Backslash character. -/
def backslashC : Char := Char.ofNat 92

/-- JSON values as produced by json.loads (integer numbers only; the
replies this development evaluates contain no floats). -/
inductive Json where
  | null : Json
  | bool (b : Bool) : Json
  | num (n : Int) : Json
  | str (s : String) : Json
  | arr (elems : List Json) : Json
  | obj (entries : List (String × Json)) : Json

mutual

/-- Structural equality test on Json values (the equality json/Python use
for `x in list`). -/
def beqJson : Json → Json → Bool
  | Json.null, Json.null => true
  | Json.bool a, Json.bool b => a == b
  | Json.num a, Json.num b => a == b
  | Json.str a, Json.str b => a == b
  | Json.arr a, Json.arr b => beqJsonList a b
  | Json.obj a, Json.obj b => beqJsonKVList a b
  | _, _ => false

/-- Equality on lists of Json values. -/
def beqJsonList : List Json → List Json → Bool
  | [], [] => true
  | a :: as, b :: bs => beqJson a b && beqJsonList as bs
  | _, _ => false

/-- Equality on key-value lists. -/
def beqJsonKVList : List (String × Json) → List (String × Json) → Bool
  | [], [] => true
  | (k1, v1) :: as, (k2, v2) :: bs => k1 == k2 && beqJson v1 v2 && beqJsonKVList as bs
  | _, _ => false

end

/-- Whitespace test used by the strip model (Python str.strip default). -/
def isSpaceB (c : Char) : Bool := c.isWhitespace

/-- Model of Python str.strip on character lists. -/
def pyStrip (l : List Char) : List Char :=
  ((l.dropWhile isSpaceB).reverse.dropWhile isSpaceB).reverse

/-- Model of Python str.strip on strings. -/
def pyStripStr (s : String) : String := String.mk (pyStrip s.data)

/-- Index of the first occurrence of a character, if any. -/
def pyFindAux (c : Char) : List Char → Option Nat
  | [] => none
  | x :: xs => if x = c then some 0 else (pyFindAux c xs).map (· + 1)

/-- Model of Python str.find: first index or -1. -/
def pyFind (c : Char) (l : List Char) : Int :=
  match pyFindAux c l with
  | some i => (i : Int)
  | none => -1

/-- Model of Python str.rfind: last index or -1. -/
def pyRFind (c : Char) (l : List Char) : Int :=
  match pyFindAux c l.reverse with
  | some j => (l.length : Int) - 1 - (j : Int)
  | none => -1

/-- Model of the Python slice l[a:b] for nonnegative bounds. -/
def pySlice (l : List Char) (a b : Nat) : List Char := (l.take b).drop a

/-- JSON extraction step shared verbatim by app.py lines 150-157 and
lines 260-267: strip the reply, then if both an opening and a closing
brace occur, keep the slice from the first opening brace to the last
closing brace. -/
def extractJsonText (t : String) : String :=
  let s := pyStrip t.data
  let start := pyFind lbraceC s
  let stop := pyRFind rbraceC s
  if start ≠ -1 ∧ stop ≠ -1 then
    String.mk (pySlice s start.toNat (stop.toNat + 1))
  else
    String.mk s

/-- Spec reading of the same step: drop everything before the first
opening brace, then drop everything after the last closing brace, on
the stripped reply. -/
def specFirstToLastSpan (t : String) : String :=
  let s := pyStrip t.data
  let s1 := s.dropWhile (fun x => x != lbraceC)
  let s2 := (s1.reverse.dropWhile (fun x => x != rbraceC)).reverse
  String.mk s2

/-- Consume JSON string characters after an opening quote; returns the
decoded string and the rest. -/
def parseStringBody (fuel : Nat) (cs : List Char) (acc : List Char) :
    Option (String × List Char) :=
  match fuel, cs with
  | 0, _ => none
  | _ + 1, [] => none
  | f + 1, c :: rest =>
    if c = quoteC then some (String.mk acc.reverse, rest)
    else if c = backslashC then
      match rest with
      | [] => none
      | e :: r =>
        if e = 'n' then parseStringBody f r ('\n' :: acc)
        else if e = 't' then parseStringBody f r ('\t' :: acc)
        else if e = 'r' then parseStringBody f r ('\r' :: acc)
        else if e = quoteC then parseStringBody f r (quoteC :: acc)
        else if e = backslashC then parseStringBody f r (backslashC :: acc)
        else if e = '/' then parseStringBody f r ('/' :: acc)
        else none
    else if c.toNat < 32 then none
    else parseStringBody f rest (c :: acc)

/-- Parse an integer literal (optionally negative); rejects the float
continuations this model does not cover. -/
def parseIntFrom (cs : List Char) : Option (Int × List Char) :=
  let (neg, cs1) :=
    match cs with
    | c :: r => if c = '-' then (true, r) else (false, cs)
    | [] => (false, cs)
  let ds := cs1.takeWhile Char.isDigit
  let rest := cs1.dropWhile Char.isDigit
  if ds.isEmpty then none
  else
    match rest with
    | c :: _ =>
      if c = '.' ∨ c = 'e' ∨ c = 'E' then none
      else
        let n : Nat := ds.foldl (fun a c => a * 10 + (c.toNat - 48)) 0
        some (if neg then -(n : Int) else (n : Int), rest)
    | [] =>
      let n : Nat := ds.foldl (fun a c => a * 10 + (c.toNat - 48)) 0
      some (if neg then -(n : Int) else (n : Int), rest)

/-- Skip JSON whitespace. -/
def skipWs (cs : List Char) : List Char := cs.dropWhile isSpaceB

mutual

/-- Parse one JSON value; fuel bounds the recursion. -/
def parseValue : Nat → List Char → Option (Json × List Char)
  | 0, _ => none
  | f + 1, input =>
    match skipWs input with
    | [] => none
    | c :: rest =>
      if c = lbraceC then parseObjectRest f rest
      else if c = '[' then parseArrayRest f rest
      else if c = quoteC then
        (parseStringBody f rest []).map (fun p => (Json.str p.1, p.2))
      else if c = 't' then
        if rest.take 3 = ['r', 'u', 'e'] then some (Json.bool true, rest.drop 3) else none
      else if c = 'f' then
        if rest.take 4 = ['a', 'l', 's', 'e'] then some (Json.bool false, rest.drop 4) else none
      else if c = 'n' then
        if rest.take 3 = ['u', 'l', 'l'] then some (Json.null, rest.drop 3) else none
      else
        match parseIntFrom (c :: rest) with
        | some (n, r) => some (Json.num n, r)
        | none => none

/-- Parse the contents of an object after the opening brace. -/
def parseObjectRest : Nat → List Char → Option (Json × List Char)
  | 0, _ => none
  | f + 1, cs =>
    match skipWs cs with
    | [] => none
    | c :: rest =>
      if c = rbraceC then some (Json.obj [], rest)
      else parseMembers f (c :: rest) []

/-- Parse the members of a nonempty object. -/
def parseMembers : Nat → List Char → List (String × Json) →
    Option (Json × List Char)
  | 0, _, _ => none
  | f + 1, cs, acc =>
    match skipWs cs with
    | [] => none
    | c :: rest =>
      if c = quoteC then
        match parseStringBody f rest [] with
        | none => none
        | some (key, r1) =>
          match skipWs r1 with
          | [] => none
          | c2 :: r2 =>
            if c2 = ':' then
              match parseValue f r2 with
              | none => none
              | some (v, r3) =>
                match skipWs r3 with
                | [] => none
                | c3 :: r4 =>
                  if c3 = ',' then parseMembers f r4 (acc ++ [(key, v)])
                  else if c3 = rbraceC then some (Json.obj (acc ++ [(key, v)]), r4)
                  else none
            else none
      else none

/-- Parse the contents of an array after the opening bracket. -/
def parseArrayRest : Nat → List Char → Option (Json × List Char)
  | 0, _ => none
  | f + 1, cs =>
    match skipWs cs with
    | [] => none
    | c :: rest =>
      if c = ']' then some (Json.arr [], rest)
      else parseElems f (c :: rest) []

/-- Parse the elements of a nonempty array. -/
def parseElems : Nat → List Char → List Json → Option (Json × List Char)
  | 0, _, _ => none
  | f + 1, cs, acc =>
    match parseValue f cs with
    | none => none
    | some (v, r) =>
      match skipWs r with
      | [] => none
      | c :: r2 =>
        if c = ',' then parseElems f r2 (acc ++ [v])
        else if c = ']' then some (Json.arr (acc ++ [v]), r2)
        else none

end

/-- Model of json.loads: parse one value and require only whitespace to
remain; none is a JSONDecodeError. -/
def parseJson (s : String) : Option Json :=
  match parseValue (s.data.length * 4 + 16) s.data with
  | some (v, rest) => if (skipWs rest).isEmpty then some v else none
  | none => none

/-- Truthiness of a parsed JSON value under Python bool(). -/
def isTruthy : Json → Bool
  | Json.null => false
  | Json.bool b => b
  | Json.num n => n != 0
  | Json.str s => !s.data.isEmpty
  | Json.arr l => !l.isEmpty
  | Json.obj kvs => !kvs.isEmpty

/-- Truthiness of an optional value (None is falsy). -/
def truthyOpt : Option Json → Bool
  | none => false
  | some j => isTruthy j

/-- Does the second list start with the first one? -/
def charListStartsWith : List Char → List Char → Bool
  | [], _ => true
  | _ :: _, [] => false
  | a :: as, b :: bs => a == b && charListStartsWith as bs

/-- Contiguous-sublist (substring) containment on character lists. -/
def listContainsSub (needle : List Char) : List Char → Bool
  | [] => needle.isEmpty
  | b :: bs => charListStartsWith needle (b :: bs) || listContainsSub needle bs

/-- Substring containment on strings, as in the Python test `a in b`. -/
def containsSubStr (needle hay : String) : Bool :=
  listContainsSub needle.data hay.data

/-- Message carried by the TypeError that Python raises for
`x in data` when data is not a container (the real message also names
the offending type). -/
def typeErrorMsg : String := "argument of type is not iterable"

/-- Model of the Python membership test `field in data` on a value
returned by json.loads: key membership on dicts, substring containment
on strings, element membership on lists, TypeError otherwise. -/
def pyIn (f : String) : Json → Except String Bool
  | Json.obj kvs => Except.ok (kvs.any (fun kv => kv.1 == f))
  | Json.str s => Except.ok (listContainsSub f.data s.data)
  | Json.arr l => Except.ok (l.any (fun v => beqJson v (Json.str f)))
  | _ => Except.error typeErrorMsg

/-- Model of Python `all(field in data for field in fields)`: stops at
the first False, and propagates the TypeError a non-container raises on
the first test. -/
def pyAllIn : List String → Json → Except String Bool
  | [], _ => Except.ok true
  | f :: fs, j =>
    match pyIn f j with
    | Except.error e => Except.error e
    | Except.ok false => Except.ok false
    | Except.ok true => pyAllIn fs j

/-- One Streamlit output call. -/
inductive UIEvent where
  | error (msg : String) : UIEvent
  | writeRaw (label : String) (content : String) : UIEvent
  | warning (msg : String) : UIEvent
  | success (msg : String) : UIEvent
  | info (msg : String) : UIEvent

/-- Is the event an st.error call? -/
def isErrorEvent : UIEvent → Bool
  | UIEvent.error _ => true
  | _ => false

/-- Is the event the st.write of the raw model reply? -/
def isWriteRawEvent : UIEvent → Bool
  | UIEvent.writeRaw _ _ => true
  | _ => false

/-- The required keys checked by generate_sql_question (app.py line 163). -/
def questionFields : List String :=
  ["question_text", "schema_description", "reference_sql", "explanation"]

/-- The required keys checked by grade_sql_answer (app.py line 273). -/
def gradingFields : List String := ["score", "verdict", "feedback"]

/-- Prefix of the st.error message for a generation JSON parse failure
(app.py line 170; the live message appends the exception text). -/
def failedParseGenMsg : String := "❌ Failed to parse Claude response as JSON"

/-- Prefix of the st.error message of the generic except branch of
generate_sql_question (app.py line 174). -/
def genErrorPrefix : String := "❌ Error generating question: "

/-- Text of the ValueError raised for missing generation fields
(app.py line 165). -/
def missingGenFieldsMsg : String := "Missing required fields in Claude response"

/-- Prefix of the st.error message for a grading JSON parse failure
(app.py line 280). -/
def failedParseGradeMsg : String := "❌ Failed to parse grading response as JSON"

/-- Prefix of the st.error message of the generic except branch of
grade_sql_answer (app.py line 284). -/
def gradeErrorPrefix : String := "❌ Error grading answer: "

/-- Text of the ValueError raised for missing grading fields
(app.py line 275). -/
def missingGradeFieldsMsg : String := "Missing required fields in Claude grading response"

/-- Label of the raw-reply st.write calls (app.py lines 171 and 281). -/
def rawLabel : String := "Raw response:"

/-- Lines 150-175 of generate_sql_question, starting from the model
reply: extract, parse, validate.  The json_text argument is the text
handed to json.loads, so that the extraction step can be replaced by a
provably equal one. -/
def generateFromJsonText (response_text : String) (json_text : String) :
    Option Json × List UIEvent :=
  match parseJson json_text with
  | none =>
    (none, [UIEvent.error failedParseGenMsg, UIEvent.writeRaw rawLabel response_text])
  | some question_data =>
    match pyAllIn questionFields question_data with
    | Except.error e => (none, [UIEvent.error (genErrorPrefix ++ e)])
    | Except.ok false => (none, [UIEvent.error (genErrorPrefix ++ missingGenFieldsMsg)])
    | Except.ok true => (some question_data, [])

/-- The parse-and-validate tail of generate_sql_question applied to the
extraction of the given reply. -/
def generate_core (response_text : String) : Option Json × List UIEvent :=
  generateFromJsonText response_text (extractJsonText response_text)

/-- Lines 259-285 of grade_sql_answer, starting from the model reply. -/
def gradeFromJsonText (response_text : String) (json_text : String) :
    Option Json × List UIEvent :=
  match parseJson json_text with
  | none =>
    (none, [UIEvent.error failedParseGradeMsg, UIEvent.writeRaw rawLabel response_text])
  | some grading_data =>
    match pyAllIn gradingFields grading_data with
    | Except.error e => (none, [UIEvent.error (gradeErrorPrefix ++ e)])
    | Except.ok false => (none, [UIEvent.error (gradeErrorPrefix ++ missingGradeFieldsMsg)])
    | Except.ok true => (some grading_data, [])

/-- The parse-and-validate tail of grade_sql_answer applied to the
extraction of the given reply. -/
def grade_core (response_text : String) : Option Json × List UIEvent :=
  gradeFromJsonText response_text (extractJsonText response_text)

/-- The st.error message of get_claude_client (app.py line 53). -/
def apiKeyErrorMsg : String :=
  "⚠️ ANTHROPIC_API_KEY environment variable not set. Please set it and restart the app."

/-- get_claude_client (app.py lines 46-55): the client is created only
when ANTHROPIC_API_KEY is a nonempty string; otherwise st.error is shown
and st.stop halts the script run. -/
def get_claude_client (apiKey : Option String) : Except (List UIEvent) Unit :=
  match apiKey with
  | none => Except.error [UIEvent.error apiKeyErrorMsg]
  | some k => if k = "" then Except.error [UIEvent.error apiKeyErrorMsg] else Except.ok ()

/-- Track guidance inserted for tracks containing "Analytics"
(app.py lines 81-89). -/
def analyticsTrackGuidance : String :=
  "\n        Focus on realistic interview-style SQL questions for Analytics/BI roles:\n        - Aggregate queries with GROUP BY, HAVING\n        - Multiple JOINs across tables\n        - Window functions (ROW_NUMBER, RANK, LAG, LEAD, etc.)\n        - Common BI metrics (conversion rates, retention, cohorts, running totals)\n        - Date/time manipulations\n        - Example domains: event analytics, e-commerce, product analytics, marketing metrics\n        "

/-- Track guidance inserted for the remaining tracks (app.py lines 91-100). -/
def dataEngineerTrackGuidance : String :=
  "\n        Focus on realistic interview-style SQL questions for Data Engineer roles:\n        - Table design and schema reasoning\n        - Complex joins and data transformations\n        - Window functions for advanced analytics\n        - Slowly changing dimensions (SCD Type 1, Type 2)\n        - Data quality checks and deduplication\n        - Partitioning concepts (conceptual understanding)\n        - ETL-style data manipulation\n        "

/-- difficulty_guidance.get(difficulty, "") (app.py lines 102-106 and 113). -/
def difficultyGuidance (difficulty : String) : String :=
  if difficulty == "Beginner" then
    "Keep it simple with 1-2 tables, basic JOINs, simple aggregations. No complex subqueries or window functions."
  else if difficulty == "Intermediate" then
    "Use 2-3 tables, moderate complexity JOINs, window functions, CTEs, and subqueries are appropriate."
  else if difficulty == "Advanced" then
    "Complex multi-table scenarios, advanced window functions, CTEs, complex business logic, edge cases."
  else ""

/-- The system prompt built by generate_sql_question (app.py lines
79-132); this is the instruction text sent to the model for generation. -/
def genSystemPrompt (track difficulty dialect : String) : String :=
  let track_guidance :=
    if containsSubStr "Analytics" track then analyticsTrackGuidance
    else dataEngineerTrackGuidance
  "You are an expert SQL interview coach. Generate realistic SQL practice questions for data analytics roles.\n\n"
    ++ track_guidance
    ++ "\n\nDifficulty level: " ++ difficulty ++ "\n" ++ difficultyGuidance difficulty
    ++ "\n\nSQL Dialect: " ++ dialect
    ++ "\n\nGuidelines:\n- Create realistic, interview-style questions\n- Keep schemas small (1-3 tables max)\n- Provide clear table descriptions with sample data context\n- Questions should test practical skills, not trivia\n- Reference SQL should be production-quality code\n\nReturn ONLY a valid JSON object with this exact structure:\n\x7b\n    \"question_text\": \"Clear problem statement here\",\n    \"schema_description\": \"Table definitions and sample data context\",\n    \"reference_sql\": \"Well-formatted SQL solution\",\n    \"explanation\": \"Step-by-step explanation of the solution approach\",\n    \"difficulty\": \"" ++ difficulty ++ "\",\n    \"track\": \"" ++ track ++ "\"\n\x7d"

/-- The user prompt of generate_sql_question (app.py line 134); kept for
completeness, the reply being an input of the model step. -/
def genUserPrompt (track difficulty dialect : String) : String :=
  "Generate a " ++ difficulty.toLower ++ " level SQL question for " ++ track
    ++ " using " ++ dialect ++ " syntax."

/-- generate_sql_question (app.py lines 58-175): initialize the client
(st.stop when the key is missing), send genSystemPrompt/genUserPrompt,
then extract, parse and validate the reply. -/
def generate_sql_question (apiKey : Option String)
    (track difficulty dialect : String) (reply : String) :
    Except (List UIEvent) (Option Json × List UIEvent) :=
  match get_claude_client apiKey with
  | Except.error evs => Except.error evs
  | Except.ok _ =>
    let _system_prompt := genSystemPrompt track difficulty dialect
    let _user_prompt := genUserPrompt track difficulty dialect
    Except.ok (generate_core reply)

/-- grade_sql_answer (app.py lines 178-285): initialize the client
(st.stop when the key is missing), send the grading prompts built from
the question fields and the answer, then extract, parse and validate the
reply.  The prompt text plays no role in the parsed result, which
depends only on the reply. -/
def grade_sql_answer (apiKey : Option String)
    (_question_text _schema_description _reference_sql _user_sql _difficulty _track : String)
    (reply : String) :
    Except (List UIEvent) (Option Json × List UIEvent) :=
  match get_claude_client apiKey with
  | Except.error evs => Except.error evs
  | Except.ok _ =>
    Except.ok (grade_core reply)

/-- The per-session Streamlit state (initialize_session_state,
app.py lines 288-301). -/
structure SessionState where
  current_question : Option Json
  grading_result : Option Json
  user_answer : String
  track : String
  difficulty : String
  dialect : String

/-- The available tracks (app.py lines 27-30). -/
def TRACKS : List String := ["Analytics / BI-focused SQL", "Data Engineer-focused SQL"]

/-- The difficulty levels (app.py lines 32-36). -/
def DIFFICULTY_LEVELS : List String := ["Beginner", "Intermediate", "Advanced"]

/-- The SQL dialects (app.py lines 38-43). -/
def SQL_DIALECTS : List String := ["PostgreSQL", "MySQL", "Snowflake", "BigQuery"]

/-- The state installed by initialize_session_state on a fresh session. -/
def initialSessionState : SessionState :=
  { current_question := none
    grading_result := none
    user_answer := ""
    track := TRACKS.headD ""
    difficulty := DIFFICULTY_LEVELS.headD ""
    dialect := SQL_DIALECTS.headD "" }

/-- Outcome of one Streamlit script run: halted means st.stop ended the
run; finished covers both a normal fall-through and the st.rerun after a
successful action.  modelCalled records whether a model request was
issued during the run. -/
inductive RunOutcome where
  | halted (state : SessionState) (events : List UIEvent) (modelCalled : Bool) : RunOutcome
  | finished (state : SessionState) (events : List UIEvent) (modelCalled : Bool) : RunOutcome

/-- The session state at the end of the run (st.stop and st.rerun both
preserve session state). -/
def stateOf : RunOutcome → SessionState
  | RunOutcome.halted s _ _ => s
  | RunOutcome.finished s _ _ => s

/-- The UI events emitted during the run. -/
def eventsOf : RunOutcome → List UIEvent
  | RunOutcome.halted _ e _ => e
  | RunOutcome.finished _ e _ => e

/-- Whether st.stop ended the run. -/
def isHalted : RunOutcome → Bool
  | RunOutcome.halted _ _ _ => true
  | RunOutcome.finished _ _ _ => false

/-- Whether a model request was issued during the run. -/
def calledModel : RunOutcome → Bool
  | RunOutcome.halted _ _ m => m
  | RunOutcome.finished _ _ m => m

/-- The st.warning message for a blank submission (app.py line 425). -/
def emptyAnswerWarnMsg : String := "⚠️ Please enter your SQL answer before submitting."

/-- The st.success message after generating (app.py line 344). -/
def genSuccessMsg : String := "✅ New question generated!"

/-- The st.info message shown while no question exists (app.py line 371). -/
def getStartedInfoMsg : String := "👈 Get started by generating a question from the sidebar!"

/-- Field access used when plumbing the stored question into the grading
call (the result of grading depends only on the model reply). -/
def getField (f : String) : Json → Option Json
  | Json.obj kvs => (kvs.find? (fun kv => kv.1 == f)).map (fun kv => kv.2)
  | _ => none

/-- String value of a field, defaulting to the given fallback. -/
def getStrField (f : String) (j : Json) (dflt : String) : String :=
  match getField f j with
  | some (Json.str s) => s
  | _ => dflt

/-- The submit branch of render_main_content (app.py lines 423-441),
reached when a question is displayed and the submit button was pressed:
a blank answer yields a warning and no model call; otherwise the stored
user answer is overwritten, then grading runs (st.stop halts it when the
key is missing, before any model call). -/
def submitAction (apiKey : Option String) (s : SessionState)
    (answerText gradeReply : String) : RunOutcome :=
  if answerText = "" ∨ pyStripStr answerText = "" then
    RunOutcome.finished s [UIEvent.warning emptyAnswerWarnMsg] false
  else
    let s1 := { s with user_answer := answerText }
    let question := s.current_question.getD Json.null
    match grade_sql_answer apiKey
        (getStrField "question_text" question "")
        (getStrField "schema_description" question "")
        (getStrField "reference_sql" question "")
        answerText
        (getStrField "difficulty" question "Intermediate")
        (getStrField "track" question "Analytics")
        gradeReply with
    | Except.error evs => RunOutcome.halted s1 evs false
    | Except.ok (grading_result, evs) =>
      if truthyOpt grading_result then
        RunOutcome.finished { s1 with grading_result := grading_result } evs true
      else
        RunOutcome.finished s1 evs true

/-- render_main_content (app.py lines 364-446) after the sidebar: shows
the get-started info when no question exists, otherwise handles a
pressed submit button.  acc and called carry over the events and
model-call flag of the sidebar. -/
def renderMain (apiKey : Option String) (s : SessionState)
    (acc : List UIEvent) (called : Bool)
    (submitClicked : Bool) (answerText gradeReply : String) : RunOutcome :=
  match s.current_question with
  | none => RunOutcome.finished s (acc ++ [UIEvent.info getStartedInfoMsg]) called
  | some _ =>
    if submitClicked then
      match submitAction apiKey s answerText gradeReply with
      | RunOutcome.halted s2 evs m => RunOutcome.halted s2 (acc ++ evs) (called || m)
      | RunOutcome.finished s2 evs m => RunOutcome.finished s2 (acc ++ evs) (called || m)
    else RunOutcome.finished s acc called

/-- One Streamlit script run of main (app.py lines 494-518): the
sidebar selector writes are reflected in the incoming state, then the
generate-button branch of render_sidebar (lines 332-345) runs, then
render_main_content.  A successful generation installs the new
question, clears the grading result and the stored answer, and ends the
run through st.rerun; the static markdown rendering is not modelled. -/
def scriptRun (apiKey : Option String) (s0 : SessionState)
    (genClicked : Bool) (genReply : String)
    (submitClicked : Bool) (answerText gradeReply : String) : RunOutcome :=
  if genClicked then
    match generate_sql_question apiKey s0.track s0.difficulty s0.dialect genReply with
    | Except.error evs => RunOutcome.halted s0 evs false
    | Except.ok (question_data, evs) =>
      if truthyOpt question_data then
        RunOutcome.finished
          { s0 with current_question := question_data, grading_result := none, user_answer := "" }
          (evs ++ [UIEvent.success genSuccessMsg]) true
      else
        renderMain apiKey s0 evs true submitClicked answerText gradeReply
  else
    renderMain apiKey s0 [] false submitClicked answerText gradeReply

/-- Do all the listed fields resolve to non-empty string values?  This is
what the spec asserts of a returned record, not what the code checks. -/
def nonEmptyStrFields (fs : List String) (q : Json) : Bool :=
  fs.all (fun f =>
    match getField f q with
    | some (Json.str s) => !s.data.isEmpty
    | _ => false)

/-- Does the score field hold an integer?  This is what the spec asserts
of a returned grading record, not what the code checks. -/
def scoreIsInt (q : Json) : Bool :=
  match getField "score" q with
  | some (Json.num _) => true
  | _ => false

/-- A generation reply whose four required fields are all present but
empty. -/
def exEmptyFieldsReply : String :=
  "\x7b\"question_text\": \"\", \"schema_description\": \"\", \"reference_sql\": \"\", \"explanation\": \"\"\x7d"

/-- The record exEmptyFieldsReply parses to. -/
def qEmptyFields : Json :=
  Json.obj [("question_text", Json.str ""), ("schema_description", Json.str ""),
    ("reference_sql", Json.str ""), ("explanation", Json.str "")]

/-- A grading reply whose score is a string and whose verdict and
feedback are empty. -/
def exBadGradeReply : String :=
  "\x7b\"score\": \"high\", \"verdict\": \"\", \"feedback\": \"\"\x7d"

/-- The record exBadGradeReply parses to. -/
def qBadGrade : Json :=
  Json.obj [("score", Json.str "high"), ("verdict", Json.str ""), ("feedback", Json.str "")]

/-- A reply that parses as JSON but lacks every required field. -/
def exMissingFieldsReply : String := "\x7b\"a\": 1\x7d"

/-- A well-formed generation reply. -/
def exGoodReply : String :=
  "\x7b\"question_text\": \"Q\", \"schema_description\": \"S\", \"reference_sql\": \"R\", \"explanation\": \"E\"\x7d"

/-- The record exGoodReply parses to. -/
def qGood : Json :=
  Json.obj [("question_text", Json.str "Q"), ("schema_description", Json.str "S"),
    ("reference_sql", Json.str "R"), ("explanation", Json.str "E")]

/-- A generation reply that is a bare JSON string containing every
required field name as a substring. -/
def exStringQuestionReply : String :=
  "\"question_text schema_description reference_sql explanation\""

/-- The non-object value exStringQuestionReply parses to. -/
def jStringQuestion : Json :=
  Json.str "question_text schema_description reference_sql explanation"

/-- A grading reply that is a bare JSON string containing every required
field name as a substring. -/
def exStringGradeReply : String := "\"score verdict feedback\""

/-- The non-object value exStringGradeReply parses to. -/
def jStringGrade : Json := Json.str "score verdict feedback"

/-- A model reply wrapping one JSON object in leading and trailing
commentary. -/
def commentaryReply : String :=
  "Sure! \x7b\"question_text\": \"Q\"\x7d Hope that helps."

/-- A session state that already displays a question. -/
def sWithQuestion : SessionState :=
  { initialSessionState with current_question := some qGood }

/-! Helper lemmas. -/

theorem pyAllIn_ok_true_mem (fs : List String) (j : Json)
    (h : pyAllIn fs j = Except.ok true) : ∀ f ∈ fs, pyIn f j = Except.ok true := by
  induction fs with
  | nil => intro f hf; cases hf
  | cons a as ih =>
    intro f hf
    unfold pyAllIn at h
    rcases ha : pyIn a j with e | b <;> rw [ha] at h
    · cases h
    · cases b with
      | false => cases h
      | true =>
        rcases List.mem_cons.mp hf with rfl | hf'
        · exact ha
        · exact ih h f hf'

theorem pyIn_ok_true_truthy (f : String) (j : Json) (hf : f.data ≠ [])
    (h : pyIn f j = Except.ok true) : isTruthy j = true := by
  cases j with
  | null => simp [pyIn] at h
  | bool b => simp [pyIn] at h
  | num n => simp [pyIn] at h
  | str s =>
    simp only [pyIn, Except.ok.injEq] at h
    cases hs : s.data with
    | nil =>
      rw [hs] at h
      unfold listContainsSub at h
      rw [List.isEmpty_iff] at h
      exact absurd h hf
    | cons c cs => simp [isTruthy, hs]
  | arr l =>
    simp only [pyIn, Except.ok.injEq] at h
    cases l with
    | nil => simp at h
    | cons a as => simp [isTruthy]
  | obj kvs =>
    simp only [pyIn, Except.ok.injEq] at h
    cases kvs with
    | nil => simp at h
    | cons a as => simp [isTruthy]

theorem generateFromJsonText_cases (r jt : String) :
    (∃ q, generateFromJsonText r jt = (some q, [])
        ∧ pyAllIn questionFields q = Except.ok true)
    ∨ ((generateFromJsonText r jt).1 = none
        ∧ (generateFromJsonText r jt).2.any isErrorEvent = true) := by
  rcases hp : parseJson jt with _ | j
  · right; simp [generateFromJsonText, hp, isErrorEvent]
  · rcases hall : pyAllIn questionFields j with e | b
    · right; simp [generateFromJsonText, hp, hall, isErrorEvent]
    · cases b with
      | false => right; simp [generateFromJsonText, hp, hall, isErrorEvent]
      | true => left; exact ⟨j, by simp [generateFromJsonText, hp, hall], hall⟩

theorem gradeFromJsonText_cases (r jt : String) :
    (∃ g, gradeFromJsonText r jt = (some g, [])
        ∧ pyAllIn gradingFields g = Except.ok true)
    ∨ ((gradeFromJsonText r jt).1 = none
        ∧ (gradeFromJsonText r jt).2.any isErrorEvent = true) := by
  rcases hp : parseJson jt with _ | j
  · right; simp [gradeFromJsonText, hp, isErrorEvent]
  · rcases hall : pyAllIn gradingFields j with e | b
    · right; simp [gradeFromJsonText, hp, hall, isErrorEvent]
    · cases b with
      | false => right; simp [gradeFromJsonText, hp, hall, isErrorEvent]
      | true => left; exact ⟨j, by simp [gradeFromJsonText, hp, hall], hall⟩

theorem generate_core_truthy (r : String) (q : Json) (evs : List UIEvent)
    (h : generate_core r = (some q, evs)) : isTruthy q = true := by
  have h' : generateFromJsonText r (extractJsonText r) = (some q, evs) := h
  rcases generateFromJsonText_cases r (extractJsonText r) with ⟨q2, hq2, hall⟩ | ⟨h1, _⟩
  · have hq : q2 = q := by
      have h2 := hq2.symm.trans h'
      exact Option.some.inj (Prod.mk.injEq _ _ _ _ ▸ h2).1
    subst hq
    have hmem : pyIn "question_text" q2 = Except.ok true :=
      pyAllIn_ok_true_mem _ _ hall "question_text" (by simp [questionFields])
    exact pyIn_ok_true_truthy _ _ (by decide) hmem
  · rw [h'] at h1
    cases h1

theorem mem_dropWhile_of_mem {c : Char} {p : Char → Bool} {l : List Char}
    (hc : c ∈ l) (hp : p c = false) : c ∈ l.dropWhile p := by
  induction l with
  | nil => cases hc
  | cons x xs ih =>
    by_cases hx : p x = true
    · rw [List.dropWhile_cons_of_pos hx]
      rcases List.mem_cons.mp hc with rfl | h
      · rw [hp] at hx; cases hx
      · exact ih h
    · rw [List.dropWhile_cons_of_neg hx]
      exact hc

theorem mem_pyStrip {c : Char} {l : List Char} (hc : c ∈ l)
    (hw : isSpaceB c = false) : c ∈ pyStrip l := by
  unfold pyStrip
  rw [List.mem_reverse]
  refine mem_dropWhile_of_mem ?_ hw
  rw [List.mem_reverse]
  exact mem_dropWhile_of_mem hc hw

theorem pyFindAux_of_mem {c : Char} {l : List Char} (h : c ∈ l) :
    ∃ i, pyFindAux c l = some i := by
  induction l with
  | nil => cases h
  | cons x xs ih =>
    by_cases hx : x = c
    · exact ⟨0, by simp [pyFindAux, hx]⟩
    · rcases List.mem_cons.mp h with rfl | h'
      · exact absurd rfl hx
      · obtain ⟨i, hi⟩ := ih h'
        exact ⟨i + 1, by simp [pyFindAux, hx, hi]⟩

theorem pyFindAux_lt_length {c : Char} {l : List Char} {i : Nat}
    (h : pyFindAux c l = some i) : i < l.length := by
  induction l generalizing i with
  | nil => cases h
  | cons x xs ih =>
    unfold pyFindAux at h
    by_cases hx : x = c
    · rw [if_pos hx] at h
      cases h
      simp
    · rw [if_neg hx] at h
      obtain ⟨i', hi', rfl⟩ := Option.map_eq_some'.mp h
      have := ih hi'
      simp
      omega

theorem dropWhile_ne_eq_drop {c : Char} {l : List Char} {i : Nat}
    (h : pyFindAux c l = some i) :
    l.dropWhile (fun x => x != c) = l.drop i := by
  induction l generalizing i with
  | nil => cases h
  | cons x xs ih =>
    unfold pyFindAux at h
    by_cases hx : x = c
    · rw [if_pos hx] at h
      cases h
      rw [List.dropWhile_cons_of_neg (by simp [hx])]
      rfl
    · rw [if_neg hx] at h
      obtain ⟨i', hi', rfl⟩ := Option.map_eq_some'.mp h
      rw [List.dropWhile_cons_of_pos (by simp [hx])]
      rw [ih hi']
      rfl

theorem dropWhile_ne_head {c : Char} {l : List Char} (h : c ∈ l) :
    ∃ t, l.dropWhile (fun x => x != c) = c :: t := by
  induction l with
  | nil => cases h
  | cons x xs ih =>
    by_cases hx : x = c
    · subst hx
      exact ⟨xs, by rw [List.dropWhile_cons_of_neg (by simp)]⟩
    · rcases List.mem_cons.mp h with rfl | h'
      · exact absurd rfl hx
      · obtain ⟨t, ht⟩ := ih h'
        exact ⟨t, by rw [List.dropWhile_cons_of_pos (by simp [hx])]; exact ht⟩

theorem dropWhile_ne_nil_of_not_mem {c : Char} {l : List Char} (h : c ∉ l) :
    l.dropWhile (fun x => x != c) = [] := by
  induction l with
  | nil => rfl
  | cons x xs ih =>
    have hx : x ≠ c := fun he => h (he ▸ List.mem_cons_self x xs)
    rw [List.dropWhile_cons_of_pos (by simp [hx])]
    exact ih (fun hm => h (List.mem_cons_of_mem x hm))

theorem pyFindAux_take {c : Char} {l : List Char} {i n : Nat}
    (h : pyFindAux c l = some i) (hm : c ∈ l.take n) :
    pyFindAux c (l.take n) = some i := by
  induction l generalizing i n with
  | nil => simp at hm
  | cons x xs ih =>
    cases n with
    | zero => simp at hm
    | succ m =>
      rw [List.take_succ_cons] at hm ⊢
      unfold pyFindAux at h ⊢
      by_cases hx : x = c
      · rw [if_pos hx] at h ⊢
        exact h
      · rw [if_neg hx] at h ⊢
        obtain ⟨i', hi', rfl⟩ := Option.map_eq_some'.mp h
        rcases List.mem_cons.mp hm with rfl | hm'
        · exact absurd rfl hx
        · rw [ih hi' hm']
          rfl

theorem pyFindAux_some_mem {c : Char} {l : List Char} {i : Nat}
    (h : pyFindAux c l = some i) : c ∈ l := by
  induction l generalizing i with
  | nil => cases h
  | cons x xs ih =>
    unfold pyFindAux at h
    by_cases hx : x = c
    · exact hx ▸ List.mem_cons_self x xs
    · rw [if_neg hx] at h
      obtain ⟨i', hi', rfl⟩ := Option.map_eq_some'.mp h
      exact List.mem_cons_of_mem x (ih hi')

theorem slice_eq_span_core (s : List Char) {a j : Nat}
    (ha : pyFindAux lbraceC s = some a)
    (hj : pyFindAux rbraceC s.reverse = some j) :
    (s.take (s.length - j)).drop a
      = ((s.dropWhile (fun x => x != lbraceC)).reverse.dropWhile
          (fun x => x != rbraceC)).reverse := by
  have hs1 : s.dropWhile (fun x => x != lbraceC) = s.drop a := dropWhile_ne_eq_drop ha
  rw [hs1, List.drop_take]
  by_cases hmem : rbraceC ∈ s.drop a
  · have hrev : (s.drop a).reverse = s.reverse.take (s.length - a) := List.reverse_drop
    have hmem' : rbraceC ∈ s.reverse.take (s.length - a) := by
      rw [← hrev, List.mem_reverse]
      exact hmem
    have hfind : pyFindAux rbraceC (s.reverse.take (s.length - a)) = some j :=
      pyFindAux_take hj hmem'
    rw [hrev, dropWhile_ne_eq_drop hfind, ← hrev, List.drop_reverse,
      List.reverse_reverse]
    congr 1
    simp only [List.length_drop]
    omega
  · have hnil : (s.drop a).reverse.dropWhile (fun x => x != rbraceC) = [] :=
      dropWhile_ne_nil_of_not_mem (by rw [List.mem_reverse]; exact hmem)
    rw [hnil, List.reverse_nil]
    obtain ⟨t, ht⟩ := dropWhile_ne_head (pyFindAux_some_mem hj)
    rw [dropWhile_ne_eq_drop hj] at ht
    have hjlen : j < s.length := by
      have := pyFindAux_lt_length hj
      simpa using this
    have htake : s.take (s.length - j) = t.reverse ++ [rbraceC] := by
      have h1 : s.reverse.drop j = (s.take (s.length - j)).reverse := List.drop_reverse
      rw [h1] at ht
      have h2 := congrArg List.reverse ht
      rw [List.reverse_reverse] at h2
      rw [h2, List.reverse_cons]
    by_cases hle : s.length - j ≤ a
    · have hz : s.length - j - a = 0 := by omega
      rw [hz, List.take_zero]
    · exfalso
      push_neg at hle
      have hlt : (s.take (s.length - j)).length = s.length - j := by
        simp only [List.length_take]
        omega
      have hlen3 : a ≤ t.reverse.length := by
        rw [htake] at hlt
        simp only [List.length_append, List.length_cons, List.length_nil] at hlt
        omega
      have hdropTake : (s.take (s.length - j)).drop a = t.reverse.drop a ++ [rbraceC] := by
        rw [htake, List.drop_append_of_le_length hlen3]
      have hmem2 : rbraceC ∈ (s.take (s.length - j)).drop a := by
        rw [hdropTake]
        exact List.mem_append_right _ (List.mem_singleton_self _)
      have hlen4 : a ≤ (s.take (s.length - j)).length := by
        rw [hlt]
        omega
      have hsplit : s.drop a = (s.take (s.length - j)).drop a ++ s.drop (s.length - j) := by
        conv_lhs => rw [← List.take_append_drop (s.length - j) s]
        rw [List.drop_append_of_le_length hlen4]
      exact hmem (hsplit ▸ List.mem_append_left _ hmem2)

theorem extract_eq_span (t : String) (h1 : lbraceC ∈ t.data) (h2 : rbraceC ∈ t.data) :
    extractJsonText t = specFirstToLastSpan t := by
  have h1' : lbraceC ∈ pyStrip t.data := mem_pyStrip h1 (by decide)
  have h2' : rbraceC ∈ pyStrip t.data := mem_pyStrip h2 (by decide)
  obtain ⟨a, ha⟩ := pyFindAux_of_mem h1'
  obtain ⟨j, hj⟩ := pyFindAux_of_mem (List.mem_reverse.mpr h2')
  have hjlen : j < (pyStrip t.data).length := by
    have := pyFindAux_lt_length hj
    simpa using this
  simp only [extractJsonText, specFirstToLastSpan, pyFind, pyRFind, ha, hj]
  rw [if_pos ⟨by omega, by omega⟩]
  have ht1 : ((a : Int)).toNat = a := by omega
  have ht2 : (((pyStrip t.data).length : Int) - 1 - (j : Int)).toNat + 1
      = (pyStrip t.data).length - j := by omega
  rw [ht1, ht2]
  exact congrArg String.mk (slice_eq_span_core (pyStrip t.data) ha hj)

/-! Claim theorems. -/

/-- C1 counterexample: on a reply whose four required fields are present
but hold empty strings, generation returns the record with no error
event, yet the fields are not populated with non-empty strings; the
claim fails at this input. -/
theorem C1_counterexample :
    ¬ ((∃ q, (generate_core exEmptyFieldsReply).1 = some q
          ∧ nonEmptyStrFields questionFields q = true)
       ∨ ((generate_core exEmptyFieldsReply).1 = none
          ∧ (generate_core exEmptyFieldsReply).2.any isErrorEvent = true)) := by
  have hval : generate_core exEmptyFieldsReply = (some qEmptyFields, []) := by rfl
  intro h
  rcases h with ⟨q, hq, hne⟩ | ⟨hn, _⟩
  · rw [hval] at hq
    have hqe : q = qEmptyFields := (Option.some.inj hq).symm
    subst hqe
    exact absurd hne (by decide)
  · rw [hval] at hn
    cases hn

/-- C1 (amended): for every key and fixed (track, difficulty, dialect)
selection, the generation operation either returns a record in which
each of the four required field names passes the membership test the
code performs, or returns none and emits a visible error message; the
code does not check that the field values are non-empty strings. -/
theorem C1_generation_result_shape (k track difficulty dialect reply : String)
    (hk : k ≠ "") :
    ∃ result, generate_sql_question (some k) track difficulty dialect reply
        = Except.ok result
      ∧ ((∃ q, result.1 = some q ∧ ∀ f ∈ questionFields, pyIn f q = Except.ok true)
         ∨ (result.1 = none ∧ result.2.any isErrorEvent = true)) := by
  refine ⟨generate_core reply, ?_, ?_⟩
  · simp [generate_sql_question, get_claude_client, hk]
  · rcases generateFromJsonText_cases reply (extractJsonText reply) with ⟨q, hq, hall⟩ | ⟨hn, he⟩
    · refine Or.inl ⟨q, ?_, pyAllIn_ok_true_mem _ _ hall⟩
      rw [show generate_core reply = generateFromJsonText reply (extractJsonText reply)
        from rfl, hq]
    · exact Or.inr ⟨hn, he⟩

/-- C1 witness: the amended theorem applied to a nonempty key and an
unparsable reply. -/
theorem C1_generation_result_shape_witness :
    ("k" : String) ≠ ""
    ∧ ∃ result, generate_sql_question (some "k") "Analytics / BI-focused SQL"
        "Beginner" "PostgreSQL" "" = Except.ok result
      ∧ ((∃ q, result.1 = some q ∧ ∀ f ∈ questionFields, pyIn f q = Except.ok true)
         ∨ (result.1 = none ∧ result.2.any isErrorEvent = true)) :=
  ⟨by decide,
   C1_generation_result_shape "k" "Analytics / BI-focused SQL" "Beginner" "PostgreSQL" ""
     (by decide)⟩

/-- C2 counterexample: on a grading reply whose score is a string and
whose verdict and feedback are empty strings, grading returns the record
with no error event, refuting the claim at this input. -/
theorem C2_counterexample :
    ¬ ((∃ g, (grade_core exBadGradeReply).1 = some g
          ∧ scoreIsInt g = true
          ∧ nonEmptyStrFields ["verdict", "feedback"] g = true)
       ∨ ((grade_core exBadGradeReply).1 = none
          ∧ (grade_core exBadGradeReply).2.any isErrorEvent = true)) := by
  have hval : grade_core exBadGradeReply = (some qBadGrade, []) := by rfl
  intro h
  rcases h with ⟨g, hg, hsc, _⟩ | ⟨hn, _⟩
  · rw [hval] at hg
    have hge : g = qBadGrade := (Option.some.inj hg).symm
    subst hge
    exact absurd hsc (by decide)
  · rw [hval] at hn
    cases hn

/-- C2 (amended): for every key, Question fields and non-empty answer,
the grading operation either returns a record in which each of score,
verdict and feedback passes the membership test the code performs, or
returns none and emits a visible error message; the code checks neither
that score is an integer nor that verdict and feedback are non-empty. -/
theorem C2_grading_result_shape
    (k question_text schema_description reference_sql user_sql difficulty track reply : String)
    (hk : k ≠ "") (_hans : user_sql ≠ "") :
    ∃ result, grade_sql_answer (some k) question_text schema_description reference_sql
        user_sql difficulty track reply = Except.ok result
      ∧ ((∃ g, result.1 = some g ∧ ∀ f ∈ gradingFields, pyIn f g = Except.ok true)
         ∨ (result.1 = none ∧ result.2.any isErrorEvent = true)) := by
  refine ⟨grade_core reply, ?_, ?_⟩
  · simp [grade_sql_answer, get_claude_client, hk]
  · rcases gradeFromJsonText_cases reply (extractJsonText reply) with ⟨g, hg, hall⟩ | ⟨hn, he⟩
    · refine Or.inl ⟨g, ?_, pyAllIn_ok_true_mem _ _ hall⟩
      rw [show grade_core reply = gradeFromJsonText reply (extractJsonText reply)
        from rfl, hg]
    · exact Or.inr ⟨hn, he⟩

/-- C2 witness: the amended theorem applied to a nonempty key, a
non-empty answer and an unparsable reply. -/
theorem C2_grading_result_shape_witness :
    (("k" : String) ≠ "" ∧ ("SELECT 1" : String) ≠ "")
    ∧ ∃ result, grade_sql_answer (some "k") "q" "s" "r" "SELECT 1" "Beginner"
        "Analytics" "" = Except.ok result
      ∧ ((∃ g, result.1 = some g ∧ ∀ f ∈ gradingFields, pyIn f g = Except.ok true)
         ∨ (result.1 = none ∧ result.2.any isErrorEvent = true)) :=
  ⟨⟨by decide, by decide⟩,
   C2_grading_result_shape "k" "q" "s" "r" "SELECT 1" "Beginner" "Analytics" ""
     (by decide) (by decide)⟩

/-- C3: for every model reply containing at least one opening and one
closing brace, both operations extract the substring of the stripped
reply running from the first opening brace to the last closing brace,
and each hands exactly that substring to the JSON parser, so leading and
trailing commentary around an embedded object is tolerated. -/
theorem C3_extract_first_to_last (t : String)
    (h1 : lbraceC ∈ t.data) (h2 : rbraceC ∈ t.data) :
    extractJsonText t = specFirstToLastSpan t
    ∧ generate_core t = generateFromJsonText t (specFirstToLastSpan t)
    ∧ grade_core t = gradeFromJsonText t (specFirstToLastSpan t) := by
  have h := extract_eq_span t h1 h2
  refine ⟨h, ?_, ?_⟩
  · rw [show generate_core t = generateFromJsonText t (extractJsonText t) from rfl, h]
  · rw [show grade_core t = gradeFromJsonText t (extractJsonText t) from rfl, h]

/-- C3 witness: the theorem applied to a reply wrapping one JSON object
in commentary; the extracted span parses to exactly the embedded
object. -/
theorem C3_extract_first_to_last_witness :
    (lbraceC ∈ commentaryReply.data ∧ rbraceC ∈ commentaryReply.data)
    ∧ extractJsonText commentaryReply = specFirstToLastSpan commentaryReply
    ∧ parseJson (extractJsonText commentaryReply)
        = some (Json.obj [("question_text", Json.str "Q")]) :=
  ⟨⟨by decide, by decide⟩,
   (C3_extract_first_to_last commentaryReply (by decide) (by decide)).1,
   by rfl⟩

/-- C4 counterexample: on a reply that parses but lacks the required
fields, generation fails with an inline error but does not show the raw
reply, refuting the claim that every parse-or-validation failure shows
the raw reply. -/
theorem C4_counterexample :
    (generate_core exMissingFieldsReply).1 = none
    ∧ ¬ ((generate_core exMissingFieldsReply).2.any isWriteRawEvent = true) := by
  have hval : generate_core exMissingFieldsReply
      = (none, [UIEvent.error (genErrorPrefix ++ missingGenFieldsMsg)]) := by rfl
  constructor
  · rw [hval]
  · rw [hval]
    decide

/-- C4 (amended): a reply that fails JSON parsing yields none together
with an inline error and the raw reply; a reply that parses but lacks a
required field yields none with an inline error only; in both cases the
current question and the grading result are left unchanged, for the
generate action and for the grading path of the submit action. -/
theorem C4_failure_frame (reply gradeReply : String) (s : SessionState) (k ans : String) :
    (parseJson (extractJsonText reply) = none →
      generate_core reply
        = (none, [UIEvent.error failedParseGenMsg, UIEvent.writeRaw rawLabel reply]))
    ∧ (∀ j, parseJson (extractJsonText reply) = some j →
        pyAllIn questionFields j = Except.ok false →
        generate_core reply = (none, [UIEvent.error (genErrorPrefix ++ missingGenFieldsMsg)]))
    ∧ (k ≠ "" → (generate_core reply).1 = none →
        stateOf (scriptRun (some k) s true reply false "" "") = s
        ∧ (eventsOf (scriptRun (some k) s true reply false "" "")).any isErrorEvent = true)
    ∧ (k ≠ "" → pyStripStr ans ≠ "" → (grade_core gradeReply).1 = none →
        stateOf (submitAction (some k) s ans gradeReply) = { s with user_answer := ans }) := by
  refine ⟨?_, ?_, ?_, ?_⟩
  · intro hp
    show generateFromJsonText reply (extractJsonText reply) = _
    simp [generateFromJsonText, hp]
  · intro j hp hall
    show generateFromJsonText reply (extractJsonText reply) = _
    simp [generateFromJsonText, hp, hall]
  · intro hk hnone
    have herr : (generate_core reply).2.any isErrorEvent = true := by
      rcases generateFromJsonText_cases reply (extractJsonText reply) with ⟨q, hq, _⟩ | ⟨_, he⟩
      · exfalso
        have hsome : (generate_core reply).1 = some q := by
          rw [show generate_core reply = generateFromJsonText reply (extractJsonText reply)
            from rfl, hq]
        rw [hnone] at hsome
        cases hsome
      · exact he
    rcases hgc : generate_core reply with ⟨qd, evs⟩
    rw [hgc] at hnone herr
    simp only at hnone herr
    subst hnone
    cases hsq : s.current_question with
    | none =>
      constructor <;>
        simp [scriptRun, generate_sql_question, get_claude_client, hk, hgc, truthyOpt,
          renderMain, hsq, stateOf, eventsOf, List.any_append, herr]
    | some q0 =>
      constructor <;>
        simp [scriptRun, generate_sql_question, get_claude_client, hk, hgc, truthyOpt,
          renderMain, hsq, stateOf, eventsOf, List.any_append, herr]
  · intro hk hans hnone
    have hcond : ¬(ans = "" ∨ pyStripStr ans = "") := by
      rintro (rfl | hc)
      · exact hans rfl
      · exact hans hc
    rcases hgr : grade_core gradeReply with ⟨gr, evs2⟩
    rw [hgr] at hnone
    simp only at hnone
    subst hnone
    simp [submitAction, hcond, grade_sql_answer, get_claude_client, hk, hgr, truthyOpt,
      stateOf]

/-- C4 witness: the amended theorem applied to an unparsable reply and a
failing grading reply. -/
theorem C4_failure_frame_witness :
    generate_core "nojson"
      = (none, [UIEvent.error failedParseGenMsg, UIEvent.writeRaw rawLabel "nojson"])
    ∧ stateOf (submitAction (some "k") initialSessionState "SELECT 1" "bad")
      = { initialSessionState with user_answer := "SELECT 1" } :=
  ⟨(C4_failure_frame "nojson" "bad" initialSessionState "k" "SELECT 1").1 (by rfl),
   (C4_failure_frame "nojson" "bad" initialSessionState "k" "SELECT 1").2.2.2
     (by decide) (by decide) (by rfl)⟩

/-- C5: a submission whose answer is empty or whitespace-only never
triggers the grading model call; the run finishes with a warning and the
state unchanged. -/
theorem C5_blank_answer_no_model_call (apiKey : Option String) (s : SessionState)
    (ans gradeReply : String) (h : pyStripStr ans = "") :
    submitAction apiKey s ans gradeReply
      = RunOutcome.finished s [UIEvent.warning emptyAnswerWarnMsg] false
    ∧ calledModel (submitAction apiKey s ans gradeReply) = false := by
  have hcond : (ans = "" ∨ pyStripStr ans = "") := Or.inr h
  constructor
  · simp only [submitAction, if_pos hcond]
  · simp only [submitAction, if_pos hcond, calledModel]

/-- C5 witness: the theorem applied to a whitespace-only answer. -/
theorem C5_blank_answer_no_model_call_witness :
    pyStripStr "   " = ""
    ∧ submitAction (some "k") initialSessionState "   " "r"
        = RunOutcome.finished initialSessionState [UIEvent.warning emptyAnswerWarnMsg] false :=
  ⟨by rfl,
   (C5_blank_answer_no_model_call (some "k") initialSessionState "   " "r" (by rfl)).1⟩

/-- C6: whenever generation succeeds, the stored grading result is
cleared to none, whatever it was before. -/
theorem C6_generate_clears_grading (k reply : String) (s : SessionState)
    (q : Json) (evs : List UIEvent) (hk : k ≠ "")
    (hgen : generate_core reply = (some q, evs)) :
    (stateOf (scriptRun (some k) s true reply false "" "")).grading_result = none := by
  have htr : isTruthy q = true := generate_core_truthy reply q evs hgen
  simp [scriptRun, generate_sql_question, get_claude_client, hk, hgen, truthyOpt, htr,
    stateOf]

/-- C6 witness: the theorem applied to a state with a stale grading
result and a well-formed generation reply. -/
theorem C6_generate_clears_grading_witness :
    generate_core exGoodReply = (some qGood, [])
    ∧ (stateOf (scriptRun (some "k")
        { initialSessionState with grading_result := some (Json.num 50) }
        true exGoodReply false "" "")).grading_result = none :=
  ⟨by rfl,
   C6_generate_clears_grading "k" exGoodReply
     { initialSessionState with grading_result := some (Json.num 50) }
     qGood [] (by decide) (by rfl)⟩

/-- C7 counterexample: with the credential absent, the first script run
with no user action completes without halting and performs no model
call, so the application does not halt fatally at startup. -/
theorem C7_counterexample :
    isHalted (scriptRun none initialSessionState false "" false "" "") = false
    ∧ scriptRun none initialSessionState false "" false "" ""
        = RunOutcome.finished initialSessionState [UIEvent.info getStartedInfoMsg] false := by
  constructor
  · rfl
  · rfl

/-- C7 (amended): with the credential absent the application renders
normally, but the moment a generate or grade operation is attempted the
script halts with a visible error, before any model call is made. -/
theorem C7_missing_key_halts_operations (s : SessionState)
    (genReply ans gradeReply : String) (q : Json) :
    (scriptRun none s true genReply false "" ""
       = RunOutcome.halted s [UIEvent.error apiKeyErrorMsg] false)
    ∧ (s.current_question = some q → pyStripStr ans ≠ "" →
        scriptRun none s false "" true ans gradeReply
          = RunOutcome.halted { s with user_answer := ans }
              [UIEvent.error apiKeyErrorMsg] false) := by
  constructor
  · simp [scriptRun, generate_sql_question, get_claude_client]
  · intro hq hans
    have hcond : ¬(ans = "" ∨ pyStripStr ans = "") := by
      rintro (rfl | hc)
      · exact hans rfl
      · exact hans hc
    simp [scriptRun, renderMain, hq, submitAction, hcond, grade_sql_answer,
      get_claude_client]

/-- C7 witness: the amended theorem applied to a state holding a
question, for one generate attempt and one grade attempt. -/
theorem C7_missing_key_halts_operations_witness :
    scriptRun none sWithQuestion true "r" false "" ""
      = RunOutcome.halted sWithQuestion [UIEvent.error apiKeyErrorMsg] false
    ∧ scriptRun none sWithQuestion false "" true "SELECT 1" "r"
      = RunOutcome.halted { sWithQuestion with user_answer := "SELECT 1" }
          [UIEvent.error apiKeyErrorMsg] false :=
  ⟨(C7_missing_key_halts_operations sWithQuestion "r" "SELECT 1" "r" qGood).1,
   (C7_missing_key_halts_operations sWithQuestion "r" "SELECT 1" "r" qGood).2
     (by rfl) (by decide)⟩

set_option maxRecDepth 40000 in
/-- C8 counterexample: the generation instruction built for
track Analytics / BI-focused SQL, difficulty Beginner, dialect
PostgreSQL never mentions CTEs, so the no-CTE constraint the claim
asserts does not appear in the instruction text. -/
theorem C8_counterexample :
    containsSubStr "CTE"
      (genSystemPrompt "Analytics / BI-focused SQL" "Beginner" "PostgreSQL") = false := by
  decide

set_option maxRecDepth 40000 in
/-- C8 (amended): the generation instruction for that scenario asserts a
small schema (1-2 tables in the beginner guidance, 1-3 in the general
guidelines) and bans complex subqueries and window functions, but says
nothing about CTEs. -/
theorem C8_beginner_instruction_text :
    containsSubStr
        "Keep it simple with 1-2 tables, basic JOINs, simple aggregations. No complex subqueries or window functions."
        (genSystemPrompt "Analytics / BI-focused SQL" "Beginner" "PostgreSQL") = true
    ∧ containsSubStr "Keep schemas small (1-3 tables max)"
        (genSystemPrompt "Analytics / BI-focused SQL" "Beginner" "PostgreSQL") = true
    ∧ containsSubStr "CTE"
        (genSystemPrompt "Analytics / BI-focused SQL" "Beginner" "PostgreSQL") = false := by
  refine ⟨by decide, by decide, by decide⟩

/-- C9: field validation only tests membership, so a bare JSON string
reply containing each required field name as a substring passes
validation in both operations, and such a non-object value is installed
as the current question. -/
theorem C9_membership_only_validation :
    generate_core exStringQuestionReply = (some jStringQuestion, [])
    ∧ grade_core exStringGradeReply = (some jStringGrade, [])
    ∧ (stateOf (scriptRun (some "k") initialSessionState true exStringQuestionReply
        false "" "")).current_question = some jStringQuestion := by
  refine ⟨by rfl, by rfl, by rfl⟩

/-- C10: a non-blank submission overwrites the stored user answer before
grading is attempted, whatever the grading outcome; a successful
generation resets the stored user answer to the empty string. -/
theorem C10_user_answer_frame (apiKey : Option String) (s : SessionState)
    (ans gradeReply k genReply : String) (q : Json) (evs : List UIEvent) :
    (pyStripStr ans ≠ "" →
      (stateOf (submitAction apiKey s ans gradeReply)).user_answer = ans)
    ∧ (k ≠ "" → generate_core genReply = (some q, evs) →
        (stateOf (scriptRun (some k) s true genReply false "" "")).user_answer = "") := by
  constructor
  · intro hans
    have hcond : ¬(ans = "" ∨ pyStripStr ans = "") := by
      rintro (rfl | hc)
      · exact hans rfl
      · exact hans hc
    rcases hcl : get_claude_client apiKey with evs0 | u
    · simp [submitAction, hcond, grade_sql_answer, hcl, stateOf]
    · rcases hgr : grade_core gradeReply with ⟨gr, evs2⟩
      rcases gr with _ | g
      · simp [submitAction, hcond, grade_sql_answer, hcl, hgr, truthyOpt, stateOf]
      · by_cases htr : isTruthy g = true
        · simp [submitAction, hcond, grade_sql_answer, hcl, hgr, truthyOpt, htr, stateOf]
        · simp [submitAction, hcond, grade_sql_answer, hcl, hgr, truthyOpt, htr, stateOf]
  · intro hk hgen
    have htr : isTruthy q = true := generate_core_truthy genReply q evs hgen
    simp [scriptRun, generate_sql_question, get_claude_client, hk, hgen, truthyOpt, htr,
      stateOf]

/-- C10 witness: the theorem applied to a failing grading reply and to a
successful generation from a state holding a stale answer. -/
theorem C10_user_answer_frame_witness :
    (stateOf (submitAction (some "k") initialSessionState "SELECT 1" "bad")).user_answer
      = "SELECT 1"
    ∧ (stateOf (scriptRun (some "k")
        { initialSessionState with user_answer := "old" }
        true exGoodReply false "" "")).user_answer = "" :=
  ⟨(C10_user_answer_frame (some "k") initialSessionState "SELECT 1" "bad" "k" exGoodReply
      qGood []).1 (by decide),
   (C10_user_answer_frame (some "k") { initialSessionState with user_answer := "old" }
      "SELECT 1" "bad" "k" exGoodReply qGood []).2 (by decide) (by rfl)⟩
